import Mathlib

/-!
Verification of the co-simulation driver `demo_VEH_Cosim_WheelRig.cpp`
(single-wheel rig co-simulation, project chrono).

The driver's control flow is embedded shallowly: the `main` function is
translated into a pure function `run` that produces the ordered list of
co-simulation events (directory creation, startup barrier, node
construction, per-step barrier / Synchronize / Advance / OutputData, final
checkpoint write) together with an outcome (normal completion, MPI abort,
CLI exit, or a null-pointer dereference).  Doubles are modelled as
rationals, C `int` casts of `std::ceil` as `Int.ceil` followed by `toNat`
(the loop bound `is < sim_steps` never runs for a non-positive count, which
`toNat` reproduces).  Console printing and pure parameter setters with no
effect on the co-simulation trace (verbosity, render flags, contact
material constants) are not part of the event model.
-/

/-- Terrain node types, `ChVehicleCosimTerrainNode::Type`. -/
inductive TerrainType where
  | RIGID
  | SCM
  | GRANULAR_OMP
  | GRANULAR_GPU
  | GRANULAR_SPH
  | GRANULAR_MPI
deriving DecidableEq, Repr

/-- Rig (tire) node types, `ChVehicleCosimRigNode::Type`. -/
inductive RigType where
  | RIGID
  | FLEXIBLE
deriving DecidableEq, Repr

/-- Build configuration: which optional chrono modules are compiled in
(`CHRONO_MULTICORE`, `CHRONO_GPU`, `CHRONO_FSI` preprocessor flags). -/
structure BuildConfig where
  multicore : Bool
  gpu : Bool
  fsi : Bool
deriving DecidableEq, Repr

/-- Observable co-simulation events of the driver, in program order.
`createDir`/`createDirFailed` record a successful/failed
`filesystem::create_directory` call; `stepBarrier`, `synchronize`,
`advance`, `outputData` are the per-step loop calls of `main`;
`writeCheckpoint` is a `WriteCheckpoint(label)` call.  The `set...`,
`settle`, `enableSettlingOutput` events record the terrain-node
configuration calls made during node construction. -/
inductive Event where
  | createDir (path : String)
  | createDirFailed (path : String)
  | startupBarrier
  | constructNode (rank : ℕ)
  | setOutDir (dir : String) (suffix : String)
  | setPatchDimensions (length : ℚ) (width : ℚ)
  | setGranularMaterial (radius : ℚ) (density : ℚ)
  | setSamplingMethod
  | setPropertiesSPH (file : String) (depth : ℚ)
  | setInputFromCheckpoint (file : String)
  | setSettlingTime (t : ℚ)
  | enableSettlingOutput (b : Bool) (fps : ℚ)
  | settle
  | writeCheckpoint (file : String)
  | initNode
  | stepBarrier (n : ℕ)
  | synchronize (n : ℕ) (time : ℚ)
  | advance (n : ℕ) (dt : ℚ)
  | outputData (n : ℕ) (frame : ℕ)
deriving DecidableEq, Repr

/-- Outcome of a run of `main`.  `abortedAll` models
`MPI_Abort(MPI_COMM_WORLD, code)`, which terminates every rank of the
communicator, i.e. both participating processes.  `cliExit` models the
`MPI_Finalize(); return 1` path after a failed CLI parse.  `nullDeref`
marks the undefined behaviour of invoking `node->Initialize()` while
`node == nullptr`. -/
inductive Outcome where
  | ok
  | abortedAll (code : ℕ)
  | cliExit
  | nullDeref
deriving DecidableEq, Repr

/-- Result of a run: the event trace of this process and the outcome. -/
structure RunResult where
  events : List Event
  outcome : Outcome
deriving DecidableEq, Repr

/-- Problem specification produced by `GetProblemSpecs` (plus the fixed
globals it completes).  Doubles are rationals. -/
structure Params where
  terrain_type : TerrainType
  nthreads_rig : ℤ
  nthreads_terrain : ℤ
  step_size : ℚ
  sim_time : ℚ
  init_vel : ℚ
  slip : ℚ
  coh_pressure : ℚ
  sys_mass : ℚ
  use_checkpoint : Bool
  output : Bool
  render : Bool
  verbose : Bool
  suffix : String
deriving DecidableEq, Repr

/-- Raw command-line option values consumed by `GetProblemSpecs`
(after `ChCLI` parsing). -/
structure CLIArgs where
  terrain_type : ℤ
  sim_time : ℚ
  step_size : ℚ
  init_vel : ℚ
  slip : ℚ
  coh_pressure : ℚ
  sys_mass : ℚ
  quiet : Bool
  no_render : Bool
  no_output : Bool
  use_checkpoint : Bool
  threads_rig : ℤ
  threads_terrain : ℤ
  suffix : String
deriving DecidableEq, Repr

/-- Output frequency (frames per second); global `output_fps = 100`. -/
def output_fps : ℚ := 100

/-- Rendering frequency (frames per second); global `render_fps = 100`. -/
def render_fps : ℚ := 100

/-- Tire type; global `tire_type = ChVehicleCosimRigNode::Type::RIGID`. -/
def tire_type : RigType := RigType.RIGID

/-- Modelled from the spec: the fixed logical rank of the rig node
(`RIG_NODE_RANK`, defined in the cosim framework header
`ChVehicleCosimBaseNode.h`, which is not under src/); the two roles are
bound to fixed ranks 0 and 1. -/
def RIG_NODE_RANK : ℕ := 0

/-- Modelled from the spec: the fixed logical rank of the terrain node
(`TERRAIN_NODE_RANK`, defined in the cosim framework header
`ChVehicleCosimBaseNode.h`, which is not under src/). -/
def TERRAIN_NODE_RANK : ℕ := 1

/-- Modelled from the spec: `ChVehicleCosimRigNode::GetTypeAsString`
(header not under src/); spec section 6 names the output directory
`<tireType>_<terrainType>`. -/
def rigTypeString : RigType → String
  | RigType.RIGID => "RIGID"
  | RigType.FLEXIBLE => "FLEXIBLE"

/-- Modelled from the spec: `ChVehicleCosimTerrainNode::GetTypeAsString`
(header not under src/); spec section 6 names the output directory
`<tireType>_<terrainType>`. -/
def terrainTypeString : TerrainType → String
  | TerrainType.RIGID => "RIGID"
  | TerrainType.SCM => "SCM"
  | TerrainType.GRANULAR_OMP => "GRANULAR_OMP"
  | TerrainType.GRANULAR_GPU => "GRANULAR_GPU"
  | TerrainType.GRANULAR_SPH => "GRANULAR_SPH"
  | TerrainType.GRANULAR_MPI => "GRANULAR_MPI"

/-- The `switch (cli.GetAsType<int>("terrain_type"))` of `GetProblemSpecs`:
values 0..5 select a terrain type (5 maps to `GRANULAR_MPI` even though the
option's help string documents only 0..4); any other value leaves the
caller's default (`RIGID`, set in `main`) unchanged. -/
def parseTerrainType (i : ℤ) : TerrainType :=
  if i = 0 then TerrainType.RIGID
  else if i = 1 then TerrainType.SCM
  else if i = 2 then TerrainType.GRANULAR_OMP
  else if i = 3 then TerrainType.GRANULAR_GPU
  else if i = 4 then TerrainType.GRANULAR_SPH
  else if i = 5 then TerrainType.GRANULAR_MPI
  else TerrainType.RIGID

/-- `GetProblemSpecs`: translate parsed CLI values into the problem
parameters (the boolean options are negations of the `quiet` / `no_render`
/ `no_output` switches). -/
def getProblemSpecs (a : CLIArgs) : Params :=
  { terrain_type := parseTerrainType a.terrain_type
    nthreads_rig := a.threads_rig
    nthreads_terrain := a.threads_terrain
    step_size := a.step_size
    sim_time := a.sim_time
    init_vel := a.init_vel
    slip := a.slip
    coh_pressure := a.coh_pressure
    sys_mass := a.sys_mass
    use_checkpoint := a.use_checkpoint
    output := !a.no_output
    render := !a.no_render
    verbose := !a.quiet
    suffix := a.suffix }

/-- `int sim_steps = (int)std::ceil(sim_time / step_size);` — the loop
`for (is = 0; is < sim_steps; ...)` performs `max(sim_steps, 0)`
iterations, which `Int.toNat` reproduces. -/
def simStepsOf (sim_time step_size : ℚ) : ℕ :=
  (Int.ceil (sim_time / step_size)).toNat

/-- `int output_steps = (int)std::ceil(1 / (output_fps * step_size));` -/
def outputStepsOf (step_size : ℚ) : ℕ :=
  (Int.ceil (1 / (output_fps * step_size))).toNat

/-- One iteration `is` of the co-simulation loop of `main`, plus the
remaining `fuel` iterations: per-step `MPI_Barrier`, then
`node->Synchronize(is, is * step_size)`, then `node->Advance(step_size)`,
then — when output is enabled and `is % output_steps == 0` —
`node->OutputData(output_frame)` with the running frame counter. -/
def mainLoopGo (ss : ℚ) (out : Bool) (oSteps : ℕ) :
    ℕ → ℕ → ℕ → List Event
  | 0, _, _ => []
  | fuel + 1, is, frame =>
    Event.stepBarrier is :: Event.synchronize is (is * ss) ::
      Event.advance is ss ::
      (if out = true ∧ is % oSteps = 0 then
        Event.outputData is frame ::
          mainLoopGo ss out oSteps fuel (is + 1) (frame + 1)
      else
        mainLoopGo ss out oSteps fuel (is + 1) frame)

/-- The co-simulation loop `for (int is = 0; is < sim_steps; is++)` of
`main`, started at step 0 and output frame 0. -/
def mainLoop (ss : ℚ) (out : Bool) (oSteps simSteps : ℕ) : List Event :=
  mainLoopGo ss out oSteps simSteps 0 0

/-- The granular-terrain initialization block shared verbatim by the
`GRANULAR_OMP` and `GRANULAR_GPU` cases of `main`: either resume from the
settled checkpoint, or set the settling time to 0.4 s, enable settling
output at `output_fps`, settle, and write `checkpoint_settled.dat`. -/
def granularCheckpointActions (use_checkpoint : Bool) : List Event :=
  if use_checkpoint then
    [Event.setInputFromCheckpoint "checkpoint_settled.dat"]
  else
    [Event.setSettlingTime (2/5),
     Event.enableSettlingOutput true output_fps,
     Event.settle,
     Event.writeCheckpoint "checkpoint_settled.dat"]

/-- Terrain node construction (the `switch (terrain_type)` of `main` on
the terrain rank).  Cases compiled under `#ifdef CHRONO_MULTICORE` /
`CHRONO_GPU` / `CHRONO_FSI` leave `node == nullptr` (`none`) when the
module is absent; `GRANULAR_MPI` has no case at all, so the pointer also
stays null.  Parameter setters without trace-relevant effect (verbosity,
render, materials, proxies, wall thickness) are not recorded. -/
def terrainNodeSetup (bc : BuildConfig) (t : TerrainType)
    (use_checkpoint : Bool) : Option (List Event) :=
  match t with
  | TerrainType.RIGID =>
    if bc.multicore then
      some [Event.setPatchDimensions 10 1]
    else none
  | TerrainType.SCM =>
    some ([Event.setPatchDimensions 10 1] ++
      (if use_checkpoint then
        [Event.setInputFromCheckpoint "checkpoint_end.dat"]
      else []))
  | TerrainType.GRANULAR_OMP =>
    if bc.multicore then
      some ([Event.setPatchDimensions 2 (3/5),
             Event.setGranularMaterial (1/50) 2500,
             Event.setSamplingMethod] ++
        granularCheckpointActions use_checkpoint)
    else none
  | TerrainType.GRANULAR_GPU =>
    if bc.gpu then
      some ([Event.setPatchDimensions 2 (3/5),
             Event.setGranularMaterial (1/50) 2500,
             Event.setSamplingMethod] ++
        granularCheckpointActions use_checkpoint)
    else none
  | TerrainType.GRANULAR_SPH =>
    if bc.fsi then
      some [Event.setPatchDimensions 10 1,
            Event.setGranularMaterial (1/50) 2500,
            Event.setPropertiesSPH "fsi/input_json/demo_tire_rig.json" (1/2)]
    else none
  | TerrainType.GRANULAR_MPI => none

/-- Node construction for a given rank: the rig node (both tire variants
always compiled) on `RIG_NODE_RANK`, a terrain node on
`TERRAIN_NODE_RANK`, and no node otherwise.  Returns the construction-time
configuration events, or `none` when `node` stays `nullptr`. -/
def nodeFor (bc : BuildConfig) (rank : ℕ) (p : Params) :
    Option (List Event) :=
  if rank = RIG_NODE_RANK then
    some []
  else if rank = TERRAIN_NODE_RANK then
    terrainNodeSetup bc p.terrain_type p.use_checkpoint
  else
    none

/-- The module-availability guards of `main`: without `CHRONO_MULTICORE`
the `RIGID` and `GRANULAR_OMP` terrain types abort; without `CHRONO_GPU`
the `GRANULAR_GPU` type aborts; without `CHRONO_FSI` the `GRANULAR_SPH`
type aborts. -/
def moduleCheckFailed (bc : BuildConfig) (t : TerrainType) : Bool :=
  (!bc.multicore &&
    (t = TerrainType.RIGID || t = TerrainType.GRANULAR_OMP)) ||
  (!bc.gpu && t = TerrainType.GRANULAR_GPU) ||
  (!bc.fsi && t = TerrainType.GRANULAR_SPH)

/-- The run from the output-directory preparation onward: rank 0 creates
`<outdir>/RIG_COSIM` and then
`<outdir>/RIG_COSIM/<tireType>_<terrainType>`, each failure raising
`MPI_Abort`; then the startup `MPI_Barrier`; then node construction
(`SetOutDir(out_dir, suffix)` follows construction), `Initialize`, the
main loop, and the unconditional final `WriteCheckpoint`. -/
def runChecked (bc : BuildConfig) (outRoot : String) (rank : ℕ)
    (p : Params) (dirTopOk dirOutOk : Bool) : RunResult :=
  let out_dir_top := outRoot ++ "RIG_COSIM"
  let out_dir := out_dir_top ++ "/" ++ rigTypeString tire_type ++ "_" ++
    terrainTypeString p.terrain_type
  if rank = 0 ∧ dirTopOk = false then
    ⟨[Event.createDirFailed out_dir_top], Outcome.abortedAll 1⟩
  else if rank = 0 ∧ dirOutOk = false then
    ⟨[Event.createDir out_dir_top, Event.createDirFailed out_dir],
      Outcome.abortedAll 1⟩
  else
    let dirEvents :=
      if rank = 0 then
        [Event.createDir out_dir_top, Event.createDir out_dir]
      else []
    match nodeFor bc rank p with
    | none => ⟨dirEvents ++ [Event.startupBarrier], Outcome.nullDeref⟩
    | some setup =>
      ⟨dirEvents ++
        [Event.startupBarrier, Event.constructNode rank,
         Event.setOutDir out_dir p.suffix] ++
        setup ++ [Event.initNode] ++
        mainLoop p.step_size p.output (outputStepsOf p.step_size)
          (simStepsOf p.sim_time p.step_size) ++
        [Event.writeCheckpoint "checkpoint_end.dat"],
       Outcome.ok⟩

/-- The run after the process-count check: failed CLI parse exits; a
terrain type whose module is not compiled in aborts; otherwise the checked
run proceeds. -/
def runParsed (bc : BuildConfig) (outRoot : String) (rank : ℕ)
    (cliOk : Bool) (p : Params) (dirTopOk dirOutOk : Bool) : RunResult :=
  if cliOk = false then ⟨[], Outcome.cliExit⟩
  else if moduleCheckFailed bc p.terrain_type then
    ⟨[], Outcome.abortedAll 1⟩
  else runChecked bc outRoot rank p dirTopOk dirOutOk

/-- The `main` function of `demo_VEH_Cosim_WheelRig.cpp` as seen by one
process of rank `rank` among `numProcs`: the process-count check runs
first and `MPI_Abort`s (both processes) on any count other than 2, before
any node object is constructed and before any physics runs. -/
def run (bc : BuildConfig) (outRoot : String) (numProcs rank : ℕ)
    (cliOk : Bool) (p : Params) (dirTopOk dirOutOk : Bool) : RunResult :=
  if numProcs ≠ 2 then ⟨[], Outcome.abortedAll 1⟩
  else runParsed bc outRoot rank cliOk p dirTopOk dirOutOk

/-- Does an event belong to loop step `n` (its per-step barrier, its
`Synchronize`, or its `Advance`)? -/
def touchesStep (n : ℕ) : Event → Bool
  | Event.stepBarrier m => m == n
  | Event.synchronize m _ => m == n
  | Event.advance m _ => m == n
  | _ => false

/-- The `(stepIndex, time)` arguments of the `Synchronize` calls of a
trace, in order. -/
def syncPairs (l : List Event) : List (ℕ × ℚ) :=
  l.filterMap fun e =>
    match e with
    | Event.synchronize n t => some (n, t)
    | _ => none

/-- The number of `Advance` calls in a trace. -/
def advanceCount (l : List Event) : ℕ :=
  l.countP fun e =>
    match e with
    | Event.advance _ _ => true
    | _ => false

/-- The `(stepIndex, frameIndex)` arguments of the `OutputData` calls of a
trace, in order. -/
def outputPairs (l : List Event) : List (ℕ × ℕ) :=
  l.filterMap fun e =>
    match e with
    | Event.outputData n f => some (n, f)
    | _ => none

/-- Pair each list element with a counter starting at `f`. -/
def indexFrom (f : ℕ) : List ℕ → List (ℕ × ℕ)
  | [] => []
  | n :: ns => (n, f) :: indexFrom (f + 1) ns

theorem indexFrom_map_fst (f : ℕ) (ns : List ℕ) :
    (indexFrom f ns).map Prod.fst = ns := by
  induction ns generalizing f with
  | nil => rfl
  | cons n ns ih => simp [indexFrom, ih]

theorem indexFrom_length (f : ℕ) (ns : List ℕ) :
    (indexFrom f ns).length = ns.length := by
  induction ns generalizing f with
  | nil => rfl
  | cons n ns ih => simp [indexFrom, ih]

theorem indexFrom_map_snd (f : ℕ) (ns : List ℕ) :
    (indexFrom f ns).map Prod.snd = List.range' f ns.length := by
  induction ns generalizing f with
  | nil => rfl
  | cons n ns ih => simp [indexFrom, ih, List.range']


theorem mainLoopGo_touchesStep_lt (ss : ℚ) (out : Bool) (oSteps : ℕ) :
    ∀ fuel is frame n, n < is →
      ∀ e ∈ mainLoopGo ss out oSteps fuel is frame,
        touchesStep n e = false := by
  intro fuel
  induction fuel with
  | zero => intro is frame n _ e he; simp [mainLoopGo] at he
  | succ fuel ih =>
    intro is frame n hn e he
    have hne : is ≠ n := by omega
    by_cases hc : out = true ∧ is % oSteps = 0
    · simp only [mainLoopGo, if_pos hc, List.mem_cons] at he
      rcases he with rfl | rfl | rfl | rfl | he
      · simp [touchesStep, hne]
      · simp [touchesStep, hne]
      · simp [touchesStep, hne]
      · simp [touchesStep]
      · exact ih (is + 1) (frame + 1) n (by omega) e he
    · simp only [mainLoopGo, if_neg hc, List.mem_cons] at he
      rcases he with rfl | rfl | rfl | he
      · simp [touchesStep, hne]
      · simp [touchesStep, hne]
      · simp [touchesStep, hne]
      · exact ih (is + 1) frame n (by omega) e he

theorem mainLoopGo_chunk (ss : ℚ) (out : Bool) (oSteps : ℕ) :
    ∀ fuel is frame n, is ≤ n → n < is + fuel →
      ∃ A B, mainLoopGo ss out oSteps fuel is frame =
          A ++ Event.stepBarrier n :: Event.synchronize n (n * ss) ::
            Event.advance n ss :: B ∧
        (∀ e ∈ A, touchesStep n e = false) ∧
        (∀ e ∈ B, touchesStep n e = false) := by
  intro fuel
  induction fuel with
  | zero => intro is frame n h1 h2; omega
  | succ fuel ih =>
    intro is frame n h1 h2
    rcases eq_or_lt_of_le h1 with rfl | hlt
    · -- the chunk is the head of this iteration
      by_cases hc : out = true ∧ is % oSteps = 0
      · refine ⟨[], Event.outputData is frame ::
          mainLoopGo ss out oSteps fuel (is + 1) (frame + 1), ?_, ?_, ?_⟩
        · simp [mainLoopGo, if_pos hc]
        · intro e he; simp at he
        · intro e he
          rcases List.mem_cons.mp he with rfl | he
          · simp [touchesStep]
          · exact mainLoopGo_touchesStep_lt ss out oSteps fuel (is + 1)
              (frame + 1) is (by omega) e he
      · refine ⟨[], mainLoopGo ss out oSteps fuel (is + 1) frame, ?_, ?_, ?_⟩
        · simp [mainLoopGo, if_neg hc]
        · intro e he; simp at he
        · intro e he
          exact mainLoopGo_touchesStep_lt ss out oSteps fuel (is + 1)
            frame is (by omega) e he
    · -- the chunk lies in the tail of the loop
      have hne : is ≠ n := by omega
      by_cases hc : out = true ∧ is % oSteps = 0
      · obtain ⟨A, B, hEq, hA, hB⟩ :=
          ih (is + 1) (frame + 1) n (by omega) (by omega)
        refine ⟨Event.stepBarrier is :: Event.synchronize is (is * ss) ::
          Event.advance is ss :: Event.outputData is frame :: A, B, ?_, ?_, hB⟩
        · simp [mainLoopGo, if_pos hc, hEq]
        · intro e he
          rcases List.mem_cons.mp he with rfl | he
          · simp [touchesStep, hne]
          rcases List.mem_cons.mp he with rfl | he
          · simp [touchesStep, hne]
          rcases List.mem_cons.mp he with rfl | he
          · simp [touchesStep, hne]
          rcases List.mem_cons.mp he with rfl | he
          · simp [touchesStep]
          · exact hA e he
      · obtain ⟨A, B, hEq, hA, hB⟩ :=
          ih (is + 1) frame n (by omega) (by omega)
        refine ⟨Event.stepBarrier is :: Event.synchronize is (is * ss) ::
          Event.advance is ss :: A, B, ?_, ?_, hB⟩
        · simp [mainLoopGo, if_neg hc, hEq]
        · intro e he
          rcases List.mem_cons.mp he with rfl | he
          · simp [touchesStep, hne]
          rcases List.mem_cons.mp he with rfl | he
          · simp [touchesStep, hne]
          rcases List.mem_cons.mp he with rfl | he
          · simp [touchesStep, hne]
          · exact hA e he

theorem mainLoopGo_syncPairs (ss : ℚ) (out : Bool) (oSteps : ℕ) :
    ∀ fuel is frame,
      syncPairs (mainLoopGo ss out oSteps fuel is frame) =
        (List.range' is fuel).map fun k : ℕ => (k, (k : ℚ) * ss) := by
  intro fuel
  induction fuel with
  | zero => intro is frame; rfl
  | succ fuel ih =>
    intro is frame
    have h1 := ih (is + 1) frame
    have h2 := ih (is + 1) (frame + 1)
    simp only [syncPairs] at h1 h2 ⊢
    by_cases hc : out = true ∧ is % oSteps = 0
    · simp [mainLoopGo, if_pos hc, List.range'_succ, h2]
    · simp [mainLoopGo, if_neg hc, List.range'_succ, h1]

theorem mainLoopGo_advanceCount (ss : ℚ) (out : Bool) (oSteps : ℕ) :
    ∀ fuel is frame,
      advanceCount (mainLoopGo ss out oSteps fuel is frame) = fuel := by
  intro fuel
  induction fuel with
  | zero => intro is frame; rfl
  | succ fuel ih =>
    intro is frame
    have h1 := ih (is + 1) frame
    have h2 := ih (is + 1) (frame + 1)
    simp only [advanceCount] at h1 h2 ⊢
    by_cases hc : out = true ∧ is % oSteps = 0
    · simp [mainLoopGo, if_pos hc, List.countP_cons, h2]
    · simp [mainLoopGo, if_neg hc, List.countP_cons, h1]

theorem mainLoopGo_outputPairs (ss : ℚ) (oSteps : ℕ) :
    ∀ fuel is frame,
      outputPairs (mainLoopGo ss true oSteps fuel is frame) =
        indexFrom frame
          ((List.range' is fuel).filter fun n => n % oSteps = 0) := by
  intro fuel
  induction fuel with
  | zero => intro is frame; rfl
  | succ fuel ih =>
    intro is frame
    have h1 := ih (is + 1) frame
    have h2 := ih (is + 1) (frame + 1)
    simp only [outputPairs] at h1 h2 ⊢
    by_cases hc : is % oSteps = 0
    · simp [mainLoopGo, hc, List.range'_succ, indexFrom, h2]
    · simp [mainLoopGo, hc, List.range'_succ, indexFrom, h1]

/-- A 3-vector with rational components. -/
abbrev Vec3 := ℚ × ℚ × ℚ

/-- The rectangular terrain patch, configured via
`SetPatchDimensions(length, width)` and centered at the origin. -/
structure Patch where
  length : ℚ
  width : ℚ
deriving DecidableEq, Repr

/-- Modelled from the spec: containment of a contact-node position in the
terrain patch bounds (spec glossary "Patch: the bounded terrain region
over which contact/force computation is defined"); the terrain-node
backend sources are not under src/. -/
def inPatch (patch : Patch) (pos : Vec3) : Bool :=
  decide (|pos.1| ≤ patch.length / 2) && decide (|pos.2.1| ≤ patch.width / 2)

/-- Modelled from the spec: the force computation of
`TerrainNode::Synchronize` for the granular/mesh-based variants (backend
sources not under src/).  Each rig-supplied contact node (position,
velocity) receives the force of the variant's physical model `model`,
except that a node outside the terrain patch bounds is soft-clamped to
zero force; the computation never faults (`Except.ok` on every input). -/
def terrainSynchronizeForces (patch : Patch) (model : Vec3 → Vec3 → Vec3)
    (nodes : List (Vec3 × Vec3)) : Except String (List Vec3) :=
  Except.ok (nodes.map fun pv =>
    if inPatch patch pv.1 then model pv.1 pv.2 else ((0 : ℚ), (0 : ℚ), (0 : ℚ)))

/-- Effect of a `WriteCheckpoint` call on a node. -/
inductive CkptEffect where
  | noopAccepted
  | persisted
deriving DecidableEq, Repr

/-- Modelled from the spec: `WriteCheckpoint(label)` is a no-op for rig
nodes (rig state is not checkpointed) but is accepted without error; for
terrain nodes it persists terrain state.  The node class sources are not
under src/. -/
def writeCheckpointEffect (rank : ℕ) : CkptEffect :=
  if rank = RIG_NODE_RANK then CkptEffect.noopAccepted
  else CkptEffect.persisted

/-- Mesh topology exchanged at `Initialize`: vertex count and face
connectivity. -/
structure MeshTopology where
  numVertices : ℕ
  faces : List (ℕ × ℕ × ℕ)
deriving DecidableEq, Repr

/-- State of the flexible-tire mesh: the fixed topology plus per-vertex
positions and velocities. -/
structure MeshState where
  topology : MeshTopology
  positions : List Vec3
  velocities : List Vec3
deriving DecidableEq, Repr

/-- A mesh state is well formed when it carries one position and one
velocity per topology vertex. -/
def wfMesh (s : MeshState) : Prop :=
  s.positions.length = s.topology.numVertices ∧
  s.velocities.length = s.topology.numVertices

/-- Modelled from the spec: the per-step update of the rig's exchanged
mesh (rig node sources not under src/): only vertex positions and
velocities change — the topology fixed at `Initialize` is untouched. -/
def rigMeshAdvance (posUpd velUpd : ℕ → Vec3 → Vec3) (s : MeshState) :
    MeshState :=
  { s with
    positions := s.positions.mapIdx posUpd
    velocities := s.velocities.mapIdx velUpd }

/-- `k` co-simulation steps of rig mesh updates. -/
def rigMeshRun (posUpd velUpd : ℕ → Vec3 → Vec3) :
    ℕ → MeshState → MeshState
  | 0, s => s
  | k + 1, s => rigMeshRun posUpd velUpd k (rigMeshAdvance posUpd velUpd s)

/-- Modelled from the spec: each `Synchronize` of a mesh-based terrain
variant returns one force per rig mesh vertex, in the vertex index order
supplied at `Initialize`; out-of-patch vertices get zero force. -/
def terrainMeshForces (patch : Patch) (model : Vec3 → Vec3 → Vec3)
    (s : MeshState) : List Vec3 :=
  (s.positions.zip s.velocities).map fun pv =>
    if inPatch patch pv.1 then model pv.1 pv.2
    else ((0 : ℚ), (0 : ℚ), (0 : ℚ))

/-- Build configuration with all optional modules compiled in. -/
def bcAll : BuildConfig := ⟨true, true, true⟩

/-- A small concrete command line used for concrete evaluations:
default terrain (RIGID), 2 s of simulation at step size 1 s. -/
def smallCLI : CLIArgs :=
  ⟨0, 2, 1, 1/2, 0, 0, 200, false, false, false, false, 1, 1, ""⟩

/-- The problem parameters of `smallCLI`. -/
def smallParams : Params := getProblemSpecs smallCLI

theorem mainLoopGo_no_checkpoint (ss : ℚ) (out : Bool) (oSteps : ℕ) :
    ∀ fuel is frame lbl,
      Event.writeCheckpoint lbl ∉ mainLoopGo ss out oSteps fuel is frame := by
  intro fuel
  induction fuel with
  | zero => intro is frame lbl h; simp [mainLoopGo] at h
  | succ fuel ih =>
    intro is frame lbl h
    by_cases hc : out = true ∧ is % oSteps = 0
    · simp only [mainLoopGo, if_pos hc, List.mem_cons] at h
      rcases h with h | h | h | h | h
      · exact Event.noConfusion h
      · exact Event.noConfusion h
      · exact Event.noConfusion h
      · exact Event.noConfusion h
      · exact ih (is + 1) (frame + 1) lbl h
    · simp only [mainLoopGo, if_neg hc, List.mem_cons] at h
      rcases h with h | h | h | h
      · exact Event.noConfusion h
      · exact Event.noConfusion h
      · exact Event.noConfusion h
      · exact ih (is + 1) frame lbl h

theorem terrainNodeSetup_no_end_checkpoint (bc : BuildConfig)
    (t : TerrainType) (u : Bool) (setup : List Event)
    (h : terrainNodeSetup bc t u = some setup) :
    Event.writeCheckpoint "checkpoint_end.dat" ∉ setup := by
  obtain ⟨m, g, f⟩ := bc
  cases t <;> cases u <;> cases m <;> cases g <;> cases f <;>
    first
      | exact Option.noConfusion h
      | (injection h with h2; subst h2; decide)

theorem nodeFor_no_end_checkpoint (bc : BuildConfig) (rank : ℕ)
    (p : Params) (setup : List Event)
    (h : nodeFor bc rank p = some setup) :
    Event.writeCheckpoint "checkpoint_end.dat" ∉ setup := by
  unfold nodeFor at h
  split_ifs at h with h1 h2
  · injection h with h2; subst h2; simp
  · exact terrainNodeSetup_no_end_checkpoint bc p.terrain_type
      p.use_checkpoint setup h

/-- C1: for every step index `n` of the co-simulation loop (the loop body
executed identically on both node processes), the trace contains the
contiguous block per-step-barrier, `Synchronize(n, n*Δt)`, `Advance(Δt)`
in exactly that order, and no other barrier/Synchronize/Advance event of
step `n` occurs anywhere else; hence the barrier completes before
`Synchronize(n,·)` is called, `Synchronize(n,·)` returns before `Advance`
is called for step `n`, and `Advance` is never reached for a step whose
`Synchronize` has not completed. -/
theorem C1_step_ordering (ss : ℚ) (out : Bool) (oSteps simSteps n : ℕ)
    (hn : n < simSteps) :
    ∃ A B, mainLoop ss out oSteps simSteps =
        A ++ Event.stepBarrier n :: Event.synchronize n (n * ss) ::
          Event.advance n ss :: B ∧
      (∀ e ∈ A, touchesStep n e = false) ∧
      (∀ e ∈ B, touchesStep n e = false) :=
  mainLoopGo_chunk ss out oSteps simSteps 0 0 n (Nat.zero_le n) (by omega)

/-- Witness for C1 at the concrete loop with step size 1, two steps. -/
theorem C1_step_ordering_witness :
    ∃ A B, mainLoop 1 false 1 2 =
        A ++ Event.stepBarrier 1 :: Event.synchronize 1 ((1 : ℕ) * (1 : ℚ)) ::
          Event.advance 1 1 :: B ∧
      (∀ e ∈ A, touchesStep 1 e = false) ∧
      (∀ e ∈ B, touchesStep 1 e = false) := by
  exact C1_step_ordering 1 false 1 2 1 (by omega)

/-- C2: with a process count other than 2, `main` calls
`MPI_Abort(MPI_COMM_WORLD, 1)` — terminating both processes — with an
empty event trace (no directory work, no node construction, no physics);
with exactly 2 processes the check passes and the run proceeds to the
parsed phase. -/
theorem C2_proc_count (bc : BuildConfig) (outRoot : String)
    (numProcs rank : ℕ) (cliOk : Bool) (p : Params) (dTop dOut : Bool) :
    (numProcs ≠ 2 →
      run bc outRoot numProcs rank cliOk p dTop dOut =
        ⟨[], Outcome.abortedAll 1⟩) ∧
    (numProcs = 2 →
      run bc outRoot numProcs rank cliOk p dTop dOut =
        runParsed bc outRoot rank cliOk p dTop dOut) := by
  constructor
  · intro h; simp [run, h]
  · intro h; simp [run, h]

/-- Witness for C2 at process counts 3 and 2. -/
theorem C2_proc_count_witness :
    run bcAll "DEMO_OUTPUT/" 3 0 true smallParams true true =
      ⟨[], Outcome.abortedAll 1⟩ ∧
    run bcAll "DEMO_OUTPUT/" 2 0 true smallParams true true =
      runParsed bcAll "DEMO_OUTPUT/" 0 true smallParams true true :=
  ⟨(C2_proc_count bcAll "DEMO_OUTPUT/" 3 0 true smallParams true true).1
      (by omega),
   (C2_proc_count bcAll "DEMO_OUTPUT/" 2 0 true smallParams true true).2 rfl⟩

/-- C3: for the granular OMP and GPU terrain variants, node construction
runs exactly one of the two initialization paths, selected by
`use_checkpoint`: with the flag set, the terrain is initialized from
`checkpoint_settled.dat` and no settling action occurs; with the flag
clear, the settling time is set to 0.4 s, settling runs, and
`checkpoint_settled.dat` is then written, with no checkpoint load. -/
theorem C3_settling_paths (bc : BuildConfig) (t : TerrainType) (u : Bool)
    (ht : t = TerrainType.GRANULAR_OMP ∧ bc.multicore = true ∨
          t = TerrainType.GRANULAR_GPU ∧ bc.gpu = true) :
    ∃ setup, terrainNodeSetup bc t u = some setup ∧
      (u = true →
        Event.setInputFromCheckpoint "checkpoint_settled.dat" ∈ setup ∧
        Event.settle ∉ setup ∧
        Event.writeCheckpoint "checkpoint_settled.dat" ∉ setup ∧
        ∀ s, Event.setSettlingTime s ∉ setup) ∧
      (u = false →
        (∀ f, Event.setInputFromCheckpoint f ∉ setup) ∧
        ∃ pre, setup = pre ++
          [Event.setSettlingTime (2/5),
           Event.enableSettlingOutput true output_fps,
           Event.settle,
           Event.writeCheckpoint "checkpoint_settled.dat"]) := by
  have hstep : terrainNodeSetup bc t u =
      some ([Event.setPatchDimensions 2 (3/5),
             Event.setGranularMaterial (1/50) 2500,
             Event.setSamplingMethod] ++
        granularCheckpointActions u) := by
    rcases ht with ⟨rfl, hm⟩ | ⟨rfl, hg⟩
    · simp [terrainNodeSetup, hm]
    · simp [terrainNodeSetup, hg]
  refine ⟨_, hstep, ?_, ?_⟩
  · rintro rfl
    refine ⟨by simp [granularCheckpointActions], ?_, ?_, ?_⟩
    · simp [granularCheckpointActions]
    · simp [granularCheckpointActions]
    · intro s; simp [granularCheckpointActions]
  · rintro rfl
    refine ⟨?_, ?_⟩
    · intro f; simp [granularCheckpointActions]
    · exact ⟨[Event.setPatchDimensions 2 (3/5),
              Event.setGranularMaterial (1/50) 2500,
              Event.setSamplingMethod],
        by simp [granularCheckpointActions]⟩

/-- Witness for C3: granular OMP terrain with all modules built, fresh
settling (flag clear). -/
theorem C3_settling_paths_witness :
    ∃ setup,
      terrainNodeSetup bcAll TerrainType.GRANULAR_OMP false = some setup ∧
      (false = true →
        Event.setInputFromCheckpoint "checkpoint_settled.dat" ∈ setup ∧
        Event.settle ∉ setup ∧
        Event.writeCheckpoint "checkpoint_settled.dat" ∉ setup ∧
        ∀ s, Event.setSettlingTime s ∉ setup) ∧
      (false = false →
        (∀ f, Event.setInputFromCheckpoint f ∉ setup) ∧
        ∃ pre, setup = pre ++
          [Event.setSettlingTime (2/5),
           Event.enableSettlingOutput true output_fps,
           Event.settle,
           Event.writeCheckpoint "checkpoint_settled.dat"]) := by
  exact C3_settling_paths bcAll TerrainType.GRANULAR_OMP false
    (Or.inl ⟨rfl, rfl⟩)

/-- C4: for positive simulation time and step size, the loop performs
exactly `⌈simulationTime / stepSize⌉` Synchronize/Advance iterations, and
the Synchronize call of iteration `n` receives the time argument
`n * stepSize`. -/
theorem C4_step_count (simTime ss : ℚ) (out : Bool) (oSteps : ℕ)
    (h1 : 0 < simTime) (h2 : 0 < ss) :
    ((simStepsOf simTime ss : ℤ) = Int.ceil (simTime / ss)) ∧
    syncPairs (mainLoop ss out oSteps (simStepsOf simTime ss)) =
      (List.range (simStepsOf simTime ss)).map
        (fun n : ℕ => (n, (n : ℚ) * ss)) ∧
    advanceCount (mainLoop ss out oSteps (simStepsOf simTime ss)) =
      simStepsOf simTime ss := by
  have hpos : 0 < simTime / ss := div_pos h1 h2
  have hceil : 0 < Int.ceil (simTime / ss) := Int.ceil_pos.mpr hpos
  refine ⟨?_, ?_, ?_⟩
  · simp [simStepsOf, Int.toNat_of_nonneg hceil.le]
  · rw [List.range_eq_range']
    exact mainLoopGo_syncPairs ss out oSteps (simStepsOf simTime ss) 0 0
  · exact mainLoopGo_advanceCount ss out oSteps (simStepsOf simTime ss) 0 0

/-- Witness for C4 at simulation time 1 s, step size 1/4 s (4 steps). -/
theorem C4_step_count_witness :
    ((simStepsOf 1 (1/4) : ℤ) = Int.ceil ((1 : ℚ) / (1/4))) ∧
    syncPairs (mainLoop (1/4) false 1 (simStepsOf 1 (1/4))) =
      (List.range (simStepsOf 1 (1/4))).map
        (fun n : ℕ => (n, (n : ℚ) * (1/4))) ∧
    advanceCount (mainLoop (1/4) false 1 (simStepsOf 1 (1/4))) =
      simStepsOf 1 (1/4) := by
  exact C4_step_count 1 (1/4) false 1 (by norm_num) (by norm_num)

theorem runChecked_ok_shape (bc : BuildConfig) (outRoot : String)
    (rank : ℕ) (p : Params) (dTop dOut : Bool) (setup : List Event)
    (hnode : nodeFor bc rank p = some setup)
    (hd1 : ¬(rank = 0 ∧ dTop = false)) (hd2 : ¬(rank = 0 ∧ dOut = false)) :
    runChecked bc outRoot rank p dTop dOut =
      ⟨(if rank = 0 then
          [Event.createDir (outRoot ++ "RIG_COSIM"),
           Event.createDir (outRoot ++ "RIG_COSIM" ++ "/" ++
             rigTypeString tire_type ++ "_" ++
             terrainTypeString p.terrain_type)]
        else []) ++
        [Event.startupBarrier, Event.constructNode rank,
         Event.setOutDir (outRoot ++ "RIG_COSIM" ++ "/" ++
           rigTypeString tire_type ++ "_" ++
           terrainTypeString p.terrain_type) p.suffix] ++
        setup ++ [Event.initNode] ++
        mainLoop p.step_size p.output (outputStepsOf p.step_size)
          (simStepsOf p.sim_time p.step_size) ++
        [Event.writeCheckpoint "checkpoint_end.dat"],
       Outcome.ok⟩ := by
  simp only [runChecked, if_neg hd1, if_neg hd2, hnode]

/-- C5: every normally completing run calls
`WriteCheckpoint("checkpoint_end.dat")` exactly once, as its very last
action after the main loop, for every rank (hence both the rig and the
terrain process), every terrain/tire variant and regardless of the output
flag; on the rig node the call is a no-op that is accepted without
error. -/
theorem C5_final_checkpoint (bc : BuildConfig) (outRoot : String)
    (rank : ℕ) (cliOk : Bool) (p : Params) (dTop dOut : Bool)
    (h : (run bc outRoot 2 rank cliOk p dTop dOut).outcome = Outcome.ok) :
    (∃ pre, (run bc outRoot 2 rank cliOk p dTop dOut).events =
        pre ++ [Event.writeCheckpoint "checkpoint_end.dat"] ∧
      Event.writeCheckpoint "checkpoint_end.dat" ∉ pre) ∧
    writeCheckpointEffect RIG_NODE_RANK = CkptEffect.noopAccepted := by
  refine ⟨?_, rfl⟩
  have hrun : run bc outRoot 2 rank cliOk p dTop dOut =
      runParsed bc outRoot rank cliOk p dTop dOut := by
    simp [run]
  rw [hrun] at h ⊢
  by_cases hcli : cliOk = false
  · simp [runParsed, hcli] at h
  rw [runParsed, if_neg hcli] at h ⊢
  by_cases hmod : moduleCheckFailed bc p.terrain_type = true
  · simp [if_pos hmod] at h
  rw [if_neg hmod] at h ⊢
  by_cases hd1 : rank = 0 ∧ dTop = false
  · simp [runChecked, if_pos hd1] at h
  by_cases hd2 : rank = 0 ∧ dOut = false
  · simp [runChecked, if_neg hd1, if_pos hd2] at h
  rcases hnode : nodeFor bc rank p with _ | setup
  · simp [runChecked, if_neg hd1, if_neg hd2, hnode] at h
  rw [runChecked_ok_shape bc outRoot rank p dTop dOut setup hnode hd1 hd2]
  refine ⟨(if rank = 0 then
      [Event.createDir (outRoot ++ "RIG_COSIM"),
       Event.createDir (outRoot ++ "RIG_COSIM" ++ "/" ++
         rigTypeString tire_type ++ "_" ++
         terrainTypeString p.terrain_type)]
    else []) ++
    [Event.startupBarrier, Event.constructNode rank,
     Event.setOutDir (outRoot ++ "RIG_COSIM" ++ "/" ++
       rigTypeString tire_type ++ "_" ++
       terrainTypeString p.terrain_type) p.suffix] ++
    setup ++ [Event.initNode] ++
    mainLoop p.step_size p.output (outputStepsOf p.step_size)
      (simStepsOf p.sim_time p.step_size), ?_, ?_⟩
  · simp [List.append_assoc]
  · intro hmem
    rcases List.mem_append.mp hmem with hmem | h1
    · rcases List.mem_append.mp hmem with hmem | h1
      · rcases List.mem_append.mp hmem with hmem | h1
        · rcases List.mem_append.mp hmem with h1 | h1
          · by_cases hr : rank = 0
            · rw [if_pos hr] at h1
              simp at h1
            · rw [if_neg hr] at h1
              simp at h1
          · simp at h1
        · exact nodeFor_no_end_checkpoint bc rank p setup hnode h1
      · simp at h1
    · simp only [mainLoop] at h1
      exact mainLoopGo_no_checkpoint p.step_size p.output
        (outputStepsOf p.step_size)
        (simStepsOf p.sim_time p.step_size) 0 0 "checkpoint_end.dat" h1

/-- Witness for C5: the complete rank-0 run of the small configuration. -/
theorem C5_final_checkpoint_witness :
    (∃ pre, (run bcAll "DEMO_OUTPUT/" 2 0 true smallParams true true).events =
        pre ++ [Event.writeCheckpoint "checkpoint_end.dat"] ∧
      Event.writeCheckpoint "checkpoint_end.dat" ∉ pre) ∧
    writeCheckpointEffect RIG_NODE_RANK = CkptEffect.noopAccepted := by
  exact C5_final_checkpoint bcAll "DEMO_OUTPUT/" 0 true smallParams true true
    (by decide)

/-- C6: with output enabled, `OutputData` is called exactly at the loop
iterations `n` with `n % outputSteps == 0`, where
`outputSteps = ⌈1 / (outputFps·stepSize)⌉`, and the frame indices passed
are the consecutive integers 0, 1, 2, … in order. -/
theorem C6_output_cadence (ss : ℚ) (K : ℕ) (h : 0 < ss) :
    ((outputStepsOf ss : ℤ) = Int.ceil (1 / (output_fps * ss))) ∧
    (outputPairs (mainLoop ss true (outputStepsOf ss) K)).map Prod.fst =
      (List.range K).filter (fun n => n % outputStepsOf ss = 0) ∧
    (outputPairs (mainLoop ss true (outputStepsOf ss) K)).map Prod.snd =
      List.range
        (outputPairs (mainLoop ss true (outputStepsOf ss) K)).length := by
  have hd : 0 < 1 / (output_fps * ss) := by
    apply div_pos one_pos
    have h100 : (0 : ℚ) < 100 := by norm_num
    simpa [output_fps] using mul_pos h100 h
  have hceil := Int.ceil_pos.mpr hd
  refine ⟨by rw [outputStepsOf, Int.toNat_of_nonneg hceil.le], ?_, ?_⟩
  · simp only [mainLoop, mainLoopGo_outputPairs, indexFrom_map_fst,
      List.range_eq_range']
  · simp only [mainLoop, mainLoopGo_outputPairs, indexFrom_map_snd,
      indexFrom_length, List.range_eq_range']

/-- Witness for C6 at step size 1/100 s (output every step), 2 steps. -/
theorem C6_output_cadence_witness :
    ((outputStepsOf (1/100) : ℤ) =
      Int.ceil (1 / (output_fps * (1/100)))) ∧
    (outputPairs (mainLoop (1/100) true (outputStepsOf (1/100)) 2)).map
        Prod.fst =
      (List.range 2).filter (fun n => n % outputStepsOf (1/100) = 0) ∧
    (outputPairs (mainLoop (1/100) true (outputStepsOf (1/100)) 2)).map
        Prod.snd =
      List.range
        (outputPairs (mainLoop (1/100) true (outputStepsOf (1/100)) 2)).length := by
  exact C6_output_cadence (1/100) 2 (by norm_num)

theorem mainLoopGo_no_createDir (ss : ℚ) (out : Bool) (oSteps : ℕ) :
    ∀ fuel is frame path,
      Event.createDir path ∉ mainLoopGo ss out oSteps fuel is frame := by
  intro fuel
  induction fuel with
  | zero => intro is frame path h; simp [mainLoopGo] at h
  | succ fuel ih =>
    intro is frame path h
    by_cases hc : out = true ∧ is % oSteps = 0
    · simp only [mainLoopGo, if_pos hc, List.mem_cons] at h
      rcases h with h | h | h | h | h
      · exact Event.noConfusion h
      · exact Event.noConfusion h
      · exact Event.noConfusion h
      · exact Event.noConfusion h
      · exact ih (is + 1) (frame + 1) path h
    · simp only [mainLoopGo, if_neg hc, List.mem_cons] at h
      rcases h with h | h | h | h
      · exact Event.noConfusion h
      · exact Event.noConfusion h
      · exact Event.noConfusion h
      · exact ih (is + 1) frame path h

/-- Parameters of the small configuration with a non-empty output
directory suffix. -/
def suffixParams : Params := { smallParams with suffix := "test" }

/-- C7 counterexample: with the non-empty suffix "test", the suffixed
path `<outdir>/RIG_COSIM/<tireType>_<terrainType>_<suffix>` is never the
target of a directory-creation call anywhere in the complete, normally
terminating rank-0 trace — in particular it is not created by rank 0
before the startup barrier, contrary to the claim; rank 0 creates only
the two unsuffixed levels, and the suffix reaches the node only through
`SetOutDir` after the barrier. -/
theorem C7_counterexample :
    Event.createDir "DEMO_OUTPUT/RIG_COSIM/RIGID_RIGID_test" ∉
      (run bcAll "DEMO_OUTPUT/" 2 0 true suffixParams true true).events ∧
    (run bcAll "DEMO_OUTPUT/" 2 0 true suffixParams true true).outcome =
      Outcome.ok := by
  have hrun : run bcAll "DEMO_OUTPUT/" 2 0 true suffixParams true true =
      runChecked bcAll "DEMO_OUTPUT/" 0 suffixParams true true := rfl
  have hshape := runChecked_ok_shape bcAll "DEMO_OUTPUT/" 0 suffixParams
    true true [] rfl (by simp) (by simp)
  constructor
  · rw [hrun, hshape]
    intro hmem
    rcases List.mem_append.mp hmem with hmem | h1
    · rcases List.mem_append.mp hmem with hmem | h1
      · rcases List.mem_append.mp hmem with hmem | h1
        · rcases List.mem_append.mp hmem with hmem | h1
          · rcases List.mem_append.mp hmem with h1 | h1
            · revert h1; decide
            · revert h1; decide
          · simp at h1
        · revert h1; decide
      · simp only [mainLoop] at h1
        exact mainLoopGo_no_createDir suffixParams.step_size
          suffixParams.output (outputStepsOf suffixParams.step_size)
          (simStepsOf suffixParams.sim_time suffixParams.step_size) 0 0
          "DEMO_OUTPUT/RIG_COSIM/RIGID_RIGID_test" h1
    · revert h1; decide
  · rw [hrun, hshape]

/-- C7 (amended): rank 0 creates `<outdir>/RIG_COSIM` and
`<outdir>/RIG_COSIM/<tireType>_<terrainType>` — without the suffix, which
is applied only after the barrier through `SetOutDir` — before the startup
barrier both processes wait on, and if creation of either directory level
fails, the whole run (both processes) is aborted via
`MPI_Abort(MPI_COMM_WORLD, 1)` before the barrier. -/
theorem C7_amended_dirs (bc : BuildConfig) (outRoot : String) (p : Params)
    (dTop dOut : Bool) :
    (dTop = true → dOut = true →
      ∃ rest, (runChecked bc outRoot 0 p dTop dOut).events =
        Event.createDir (outRoot ++ "RIG_COSIM") ::
        Event.createDir (outRoot ++ "RIG_COSIM" ++ "/" ++
          rigTypeString tire_type ++ "_" ++
          terrainTypeString p.terrain_type) ::
        Event.startupBarrier :: rest) ∧
    (dTop = false →
      runChecked bc outRoot 0 p dTop dOut =
        ⟨[Event.createDirFailed (outRoot ++ "RIG_COSIM")],
          Outcome.abortedAll 1⟩) ∧
    (dTop = true → dOut = false →
      runChecked bc outRoot 0 p dTop dOut =
        ⟨[Event.createDir (outRoot ++ "RIG_COSIM"),
          Event.createDirFailed (outRoot ++ "RIG_COSIM" ++ "/" ++
            rigTypeString tire_type ++ "_" ++
            terrainTypeString p.terrain_type)],
          Outcome.abortedAll 1⟩) := by
  refine ⟨?_, ?_, ?_⟩
  · rintro rfl rfl
    rw [runChecked_ok_shape bc outRoot 0 p true true [] rfl
      (by simp) (by simp)]
    refine ⟨[Event.constructNode 0,
      Event.setOutDir (outRoot ++ "RIG_COSIM" ++ "/" ++
        rigTypeString tire_type ++ "_" ++
        terrainTypeString p.terrain_type) p.suffix,
      Event.initNode] ++
      mainLoop p.step_size p.output (outputStepsOf p.step_size)
        (simStepsOf p.sim_time p.step_size) ++
      [Event.writeCheckpoint "checkpoint_end.dat"], ?_⟩
    simp
  · rintro rfl
    simp [runChecked]
  · rintro rfl rfl
    simp [runChecked]

/-- Witness for the amended C7: both creations succeed in the small
configuration. -/
theorem C7_amended_dirs_witness :
    ∃ rest,
      (runChecked bcAll "DEMO_OUTPUT/" 0 suffixParams true true).events =
        Event.createDir ("DEMO_OUTPUT/" ++ "RIG_COSIM") ::
        Event.createDir ("DEMO_OUTPUT/" ++ "RIG_COSIM" ++ "/" ++
          rigTypeString tire_type ++ "_" ++
          terrainTypeString suffixParams.terrain_type) ::
        Event.startupBarrier :: rest := by
  exact (C7_amended_dirs bcAll "DEMO_OUTPUT/" suffixParams true true).1
    rfl rfl

/-- C8: for the granular/mesh-based terrain force computation, a
rig-supplied contact node whose position lies outside the terrain patch
bounds receives exactly zero force from `Synchronize`, the result still
carries one force per supplied node, and the computation never faults
(`Except.ok` on every input). -/
theorem C8_out_of_bounds_zero (patch : Patch)
    (model : Vec3 → Vec3 → Vec3) (nodes : List (Vec3 × Vec3)) (i : ℕ)
    (hi : i < nodes.length)
    (hoob : inPatch patch (nodes.get ⟨i, hi⟩).1 = false) :
    ∃ fs, terrainSynchronizeForces patch model nodes = Except.ok fs ∧
      fs.length = nodes.length ∧
      fs[i]? = some ((0 : ℚ), (0 : ℚ), (0 : ℚ)) := by
  refine ⟨_, rfl, by simp, ?_⟩
  have hoob2 : inPatch patch (nodes[i]).1 = false := hoob
  rw [List.getElem?_map, List.getElem?_eq_getElem hi]
  simp [hoob2]

/-- Witness for C8: a single contact node at x = 5 on a 2 × 1 patch. -/
theorem C8_out_of_bounds_zero_witness :
    ∃ fs, terrainSynchronizeForces ⟨2, 1⟩ (fun pos _ => pos)
        [((5, 0, 0), (0, 0, 0))] = Except.ok fs ∧
      fs.length = 1 ∧
      fs[0]? = some ((0 : ℚ), (0 : ℚ), (0 : ℚ)) := by
  exact C8_out_of_bounds_zero ⟨2, 1⟩ (fun pos _ => pos)
    [((5, 0, 0), (0, 0, 0))] 0 (by norm_num)
    (by norm_num [inPatch, List.get])

theorem rigMeshRun_topology (posUpd velUpd : ℕ → Vec3 → Vec3) :
    ∀ k s, (rigMeshRun posUpd velUpd k s).topology = s.topology ∧
      (rigMeshRun posUpd velUpd k s).positions.length =
        s.positions.length ∧
      (rigMeshRun posUpd velUpd k s).velocities.length =
        s.velocities.length := by
  intro k
  induction k with
  | zero => intro s; exact ⟨rfl, rfl, rfl⟩
  | succ k ih =>
    intro s
    obtain ⟨h1, h2, h3⟩ := ih (rigMeshAdvance posUpd velUpd s)
    simp only [rigMeshRun]
    refine ⟨h1.trans rfl, ?_, ?_⟩
    · rw [h2]; simp [rigMeshAdvance]
    · rw [h3]; simp [rigMeshAdvance]

/-- C9: for a flexible-tire run whose exchanged mesh is well formed with
`N = numVertices` vertices at `Initialize`, the topology (vertex count and
face connectivity) is unchanged after any number of co-simulation steps —
only vertex positions and velocities change — the state stays well formed,
every subsequent `Synchronize` returns exactly `N` force vectors, and the
`i`-th returned force is computed from the `i`-th vertex (the index order
supplied at `Initialize`). -/
theorem C9_mesh_topology_stable (patch : Patch)
    (model : Vec3 → Vec3 → Vec3) (posUpd velUpd : ℕ → Vec3 → Vec3)
    (k : ℕ) (s : MeshState) (hw : wfMesh s) :
    (rigMeshRun posUpd velUpd k s).topology = s.topology ∧
    wfMesh (rigMeshRun posUpd velUpd k s) ∧
    (terrainMeshForces patch model (rigMeshRun posUpd velUpd k s)).length =
      s.topology.numVertices ∧
    ∀ i : ℕ,
      (terrainMeshForces patch model (rigMeshRun posUpd velUpd k s))[i]? =
        (((rigMeshRun posUpd velUpd k s).positions.zip
            (rigMeshRun posUpd velUpd k s).velocities)[i]?).map
          (fun pv => if inPatch patch pv.1 then model pv.1 pv.2
            else ((0 : ℚ), (0 : ℚ), (0 : ℚ))) := by
  obtain ⟨h1, h2, h3⟩ := rigMeshRun_topology posUpd velUpd k s
  obtain ⟨hwp, hwv⟩ := hw
  refine ⟨h1, ⟨?_, ?_⟩, ?_, ?_⟩
  · rw [h2, h1, hwp]
  · rw [h3, h1, hwv]
  · simp [terrainMeshForces, h2, h3, hwp, hwv]
  · intro i
    simp [terrainMeshForces, List.getElem?_map]

/-- A one-vertex initial mesh state. -/
def meshInit : MeshState :=
  ⟨⟨1, []⟩, [((0, 0, 0) : Vec3)], [((0, 0, 0) : Vec3)]⟩

/-- Witness for C9: three steps of identity updates on a one-vertex
mesh. -/
theorem C9_mesh_topology_stable_witness :
    (rigMeshRun (fun _ v => v) (fun _ v => v) 3 meshInit).topology =
      meshInit.topology ∧
    wfMesh (rigMeshRun (fun _ v => v) (fun _ v => v) 3 meshInit) ∧
    (terrainMeshForces ⟨2, 1⟩ (fun pos _ => pos)
        (rigMeshRun (fun _ v => v) (fun _ v => v) 3 meshInit)).length =
      meshInit.topology.numVertices ∧
    ∀ i : ℕ,
      (terrainMeshForces ⟨2, 1⟩ (fun pos _ => pos)
          (rigMeshRun (fun _ v => v) (fun _ v => v) 3 meshInit))[i]? =
        (((rigMeshRun (fun _ v => v) (fun _ v => v) 3 meshInit).positions.zip
            (rigMeshRun (fun _ v => v) (fun _ v => v) 3 meshInit).velocities)[i]?).map
          (fun pv => if inPatch ⟨2, 1⟩ pv.1 then pv.1
            else ((0 : ℚ), (0 : ℚ), (0 : ℚ))) := by
  exact C9_mesh_topology_stable ⟨2, 1⟩ (fun pos _ => pos)
    (fun _ v => v) (fun _ v => v) 3 meshInit ⟨rfl, rfl⟩

/-- The command line of the failing input for C10: `--terrain_type=5`. -/
def cliGranularMPI : CLIArgs := { smallCLI with terrain_type := 5 }

/-- C10: refuted by the code — the configuration parser maps the accepted
value 5 to `GRANULAR_MPI` (a value its own help string does not document),
no module guard rejects it, and the terrain-rank `switch` has no
`GRANULAR_MPI` case, so `node` remains `nullptr` and
`node->Initialize()` dereferences a null pointer: the run reaches
`Initialize` with a null node pointer under every build configuration,
instead of raising a configuration error or constructing a node. -/
theorem C10_granular_mpi_null_deref (bc : BuildConfig) :
    parseTerrainType 5 = TerrainType.GRANULAR_MPI ∧
    moduleCheckFailed bc TerrainType.GRANULAR_MPI = false ∧
    nodeFor bc TERRAIN_NODE_RANK (getProblemSpecs cliGranularMPI) = none ∧
    (run bc "DEMO_OUTPUT/" 2 TERRAIN_NODE_RANK true
        (getProblemSpecs cliGranularMPI) true true).outcome =
      Outcome.nullDeref := by
  obtain ⟨m, g, f⟩ := bc
  cases m <;> cases g <;> cases f <;> exact ⟨rfl, rfl, rfl, rfl⟩
